import Mathlib

/-!
Verification development for the `taskaeroleads` lead-scraping backend
(`backend/task1/linkedin_scraper.py` and
`backend/task1/gemini_keyword_extractor.py`).

The Python code is shallowly embedded: every Selenium/BeautifulSoup lookup
becomes an explicit input field (an `Option` models a lookup that may raise,
a `List` models `find_elements`, which returns a possibly-empty list and
never raises), and each Python function becomes a total Lean function whose
control flow mirrors the source line by line.  Python string operations are
re-implemented over `List Char` with Python semantics (`in` as substring
containment, `str.split()` dropping empty fields, `str.strip()`,
`str.split(sep)[...]`, truthiness of strings and `None`).
-/

namespace TaskAero

/-! ## Python string semantics -/

/-- Python `pat in s` (substring containment). -/
def strContains (s pat : String) : Bool :=
  (List.range (s.data.length + 1)).any (fun i => pat.data.isPrefixOf (s.data.drop i))

/-- Python `s.startswith(pre)`. -/
def pyStartsWith (s pre : String) : Bool :=
  pre.data.isPrefixOf s.data

/-- Python `s.split('?')[0]`: the characters before the first `'?'`. -/
def stripQuery (s : String) : String :=
  ⟨s.data.takeWhile (fun c => c != '?')⟩

/-- Python `s.lower()` (ASCII case folding, as used by the code's inputs). -/
def pyLower (s : String) : String :=
  ⟨s.data.map Char.toLower⟩

/-- Python `s.strip()`: drop leading and trailing whitespace. -/
def pyStrip (s : String) : String :=
  ⟨((s.data.dropWhile Char.isWhitespace).reverse.dropWhile Char.isWhitespace).reverse⟩

/-- Helper for `pySplitWs`: accumulate the current word (reversed) while
scanning the character list. -/
def pySplitWsCore : List Char → List Char → List String
  | [], cur => if cur.isEmpty then [] else [⟨cur.reverse⟩]
  | c :: cs, cur =>
    if c.isWhitespace then
      if cur.isEmpty then pySplitWsCore cs []
      else (⟨cur.reverse⟩ : String) :: pySplitWsCore cs []
    else pySplitWsCore cs (c :: cur)

/-- Python `s.split()` with no argument: split on whitespace runs, dropping
empty fields. -/
def pySplitWs (s : String) : List String :=
  pySplitWsCore s.data []

/-- Helper for `lastSplitSeg`: left-to-right non-overlapping split on a
non-empty separator, fuel-bounded by the input length. -/
def splitOnCore (sep : List Char) : Nat → List Char → List Char → List (List Char)
  | _, [], cur => [cur.reverse]
  | 0, s, cur => [cur.reverse ++ s]
  | fuel + 1, c :: cs, cur =>
    if sep.isPrefixOf (c :: cs) then
      cur.reverse :: splitOnCore sep fuel ((c :: cs).drop sep.length) []
    else
      splitOnCore sep fuel cs (c :: cur)

/-- Python `s.split(sep)[-1]` for a non-empty `sep`: the last segment of the
non-overlapping left-to-right split. -/
def lastSplitSeg (sep s : String) : String :=
  ⟨(splitOnCore sep.data s.data.length s.data []).getLastD []⟩

/-- Python `x if x else "N/A"` on a string `x` (empty strings are falsy). -/
def orNA (s : String) : String :=
  if s = "" then "N/A" else s

/-- Python `a or b` on optional strings (`None` and `""` are falsy). -/
def pyOr (a b : Option String) : Option String :=
  match a with
  | some s => if s = "" then b else some s
  | none => b

/-- Python truthiness of an optional string: `None` and `""` are falsy. -/
def truthy : Option String → Bool
  | none => false
  | some s => s != ""

/-- Order-preserving deduplication, keeping first occurrences; models
`list(set(xs))` for a list that the caller builds duplicate-free (the set
conversion is then a permutation; Python's iteration order is unspecified, so
first-seen order is the canonical choice). -/
def dedupFirst (seen : List String) : List String → List String
  | [] => []
  | x :: xs =>
    if seen.contains x then dedupFirst seen xs
    else x :: dedupFirst (x :: seen) xs

/-! ## Keyword extractor (`gemini_keyword_extractor.py`)

`GeminiKeywordExtractor._fallback_extraction` is the local fallback used when
the Gemini service is unavailable. -/

/-- The fixed stopword set of `_fallback_extraction`. -/
def stop_words : List String :=
  ["the", "a", "an", "and", "or", "but", "in", "on", "at",
   "to", "for", "of", "with", "by", "i", "want", "leads",
   "they", "are", "doing"]

/-- The tokens of `prompt.lower().split()` that survive the stopword and
length filters: `[w for w in words if w not in stop_words and len(w) > 2]`. -/
def surviving (prompt : String) : List String :=
  (pySplitWs (pyLower prompt)).filter
    (fun w => !stop_words.contains w && w.length > 2)

/-- `GeminiKeywordExtractor._fallback_extraction(prompt)`:
`return keywords[:7] if keywords else ['business', 'professional']`. -/
def fallback_extraction (prompt : String) : List String :=
  let keywords := surviving prompt
  if keywords.isEmpty then ["business", "professional"] else keywords.take 7

/-! ## Scraper construction (`LinkedInScraper.__init__`) -/

/-- A raised Python exception, abstracted to its class name and message. -/
structure PyExc where
  cls : String
  msg : String
deriving DecidableEq, Repr

/-- The credentials held by a successfully constructed `LinkedInScraper`. -/
structure ScraperCreds where
  linkedin_email : String
  linkedin_password : String
deriving DecidableEq, Repr

/-- `LinkedInScraper.__init__`: each credential is the argument `or` the
environment variable; if either resulting value is falsy, raise `ValueError`.
Arguments and environment lookups are `Option String` (`none` models Python
`None`, i.e. an absent argument or an unset variable). -/
def scraper_init (emailArg passwordArg envEmail envPassword : Option String) :
    Except PyExc ScraperCreds :=
  let email := pyOr emailArg envEmail
  let password := pyOr passwordArg envPassword
  if truthy email && truthy password then
    .ok ⟨email.getD "", password.getD ""⟩
  else
    .error ⟨"ValueError",
      "LINKEDIN_EMAIL and LINKEDIN_PASSWORD must be provided or set in environment variables"⟩

/-! ## Profile extractor (`LinkedInScraper._scrape_profile`)

Each Selenium lookup of the Python function becomes one input field:
an `Option String` is a `find_element`/`WebDriverWait` that either raises
(`none`) or yields an element with the given `.text`; a `List String` is a
`find_elements` result (never raises); `Option (List String)` is a lookup of
the experience section that may raise before its `find_elements` runs. -/

/-- The inputs the extractor reads from one profile page. `loadOk = false`
models any exception in the navigation prologue (`driver.get` / scrolling),
which is caught by the outermost `except`. -/
structure ProfilePage where
  loadOk : Bool
  h1Text : Option String
  h1XlText : Option String
  bodyMediumBreak : Option String
  bodyMedium : Option String
  locSelectorTexts : List (List String)
  expLinkTexts : Option (List String)
  expSpanTexts : Option (List String)

/-- The record returned for one profile. -/
structure ProfileRecord where
  name : String
  title : String
  company : String
  location : String
deriving DecidableEq, Repr

/-- The curated location keyword list of `_scrape_profile`. -/
def location_keywords : List String :=
  ["uae", "dubai", "abu dhabi", "sharjah", "emirates", "saudi", "qatar",
   "kuwait", "bahrain", "oman", "india", "pakistan", "bangladesh",
   "singapore", "malaysia", "thailand", "indonesia", "philippines",
   "london", "new york", "california", "texas", "toronto", "sydney",
   "melbourne", "united arab", "united states", "united kingdom",
   "city", "region", "area", "state", "province", "country"]

/-- The location acceptance test of `_scrape_profile`, applied to the already
stripped element text `s`:
`text and len(text) > 2 and len(text) < 100 and text != name and
 text != title and (',' in text or any(word in text.lower() for word in [...]))`. -/
def locMatch (name title s : String) : Bool :=
  s != "" && s.length > 2 && s.length < 100 && s != name && s != title &&
    (strContains s "," || location_keywords.any (fun w => strContains (pyLower s) w))

/-- The inner loop over one selector's elements: the first stripped text
passing `locMatch` wins. -/
def scanTexts (name title : String) : List String → Option String
  | [] => none
  | t :: ts =>
    let s := pyStrip t
    if locMatch name title s then some s else scanTexts name title ts

/-- The outer loop over the five location selectors: the first selector
yielding a match wins, else the sentinel. -/
def findLocation (name title : String) : List (List String) → String
  | [] => "N/A"
  | sel :: rest =>
    match scanTexts name title sel with
    | some s => s
    | none => findLocation name title rest

/-- `LinkedInScraper._scrape_profile`: per-field ordered fallback chains with
the `"N/A"` sentinel, a final `x if x else "N/A"` guard on each field, and an
outermost `except` returning the all-sentinel record. -/
def scrape_profile (pg : ProfilePage) : ProfileRecord :=
  if !pg.loadOk then ⟨"N/A", "N/A", "N/A", "N/A"⟩
  else
    let name :=
      match pg.h1Text with
      | some t => pyStrip t
      | none =>
        match pg.h1XlText with
        | some t => pyStrip t
        | none => "N/A"
    let title :=
      match pg.bodyMediumBreak with
      | some t => pyStrip t
      | none =>
        match pg.bodyMedium with
        | some t => pyStrip t
        | none => "N/A"
    let company0 :=
      if strContains title " at " then pyStrip (lastSplitSeg " at " title)
      else "N/A"
    let company :=
      if company0 = "N/A" then
        match pg.expLinkTexts with
        | some (l :: _) => pyStrip l
        | some [] => company0
        | none =>
          match pg.expSpanTexts with
          | some (sp :: _) => pyStrip sp
          | some [] => company0
          | none => company0
      else company0
    let location := findLocation name title pg.locSelectorTexts
    ⟨orNA name, orNA title, orNA company, orNA location⟩

/-! ## Search paginator (`LinkedInScraper._search_profiles`)

One fetched search page is abstracted to the href lists its two extraction
strategies scan: all anchor hrefs in document order, and — for the
data-attribute scan — the href of the first link of each
`div[data-chameleon-result-urn]` that has one. -/

/-- The href content of one rendered search page. -/
structure SearchPage where
  anchorHrefs : List String
  entityHrefs : List String
deriving DecidableEq, Repr

/-- The shared validity-and-deduplication append of strategy 1:
`if '/in/' in full_url and full_url not in profile_urls and full_url not in
page_urls: page_urls.append(full_url)`. -/
def addIfNew (acc pageAcc : List String) (full : String) : List String :=
  if strContains full "/in/" && !acc.contains full && !pageAcc.contains full then
    pageAcc ++ [full]
  else pageAcc

/-- Strategy 1 (anchor scan), one href: inclusion test, relative hrefs
absolutized verbatim (query string retained), absolute hrefs query-stripped,
then the validity and deduplication append; the `else: continue` branch
contributes nothing. -/
def strat1Step (acc : List String) (pageAcc : List String) (href : String) :
    List String :=
  if strContains href "/in/" && strContains href "linkedin.com" then
    if pyStartsWith href "/" then
      addIfNew acc pageAcc ("https://www.linkedin.com" ++ href)
    else if strContains href "linkedin.com" then
      addIfNew acc pageAcc (stripQuery href)
    else pageAcc
  else pageAcc

/-- Strategy 2 (data-attribute scan), one href: absolutize if needed, always
query-strip, then deduplication checks. -/
def strat2Step (acc : List String) (pageAcc : List String) (href : String) :
    List String :=
  if strContains href "/in/" then
    let full0 := if pyStartsWith href "http" then href
                 else "https://www.linkedin.com" ++ href
    let full := stripQuery full0
    if !acc.contains full && !pageAcc.contains full then pageAcc ++ [full]
    else pageAcc
  else pageAcc

/-- The new URLs one page contributes (`page_urls`): strategy 1 over all
anchors, then strategy 2 over the result containers. -/
def pageUrls (pg : SearchPage) (acc : List String) : List String :=
  pg.entityHrefs.foldl (strat2Step acc) (pg.anchorHrefs.foldl (strat1Step acc) [])

/-- One page fetch of the pagination loop: which page index was fetched, how
many URLs the running set held before it, and how many new URLs it added. -/
structure FetchEvt where
  pageIdx : Nat
  accBefore : Nat
  newCount : Nat
deriving DecidableEq, Repr

/-- The `while len(profile_urls) < limit and page < max_pages` loop of
`_search_profiles`. The fuel argument is `max_pages - page`, so `fuel > 0`
iff `page < max_pages`; pages beyond the supplied list render no profile
links. Returns the accumulated URL list and the trace of page fetches. -/
def searchLoop (pages : List SearchPage) (limit : Nat) :
    Nat → Nat → List String → List String × List FetchEvt
  | 0, _, acc => (acc, [])
  | fuel + 1, page, acc =>
    if acc.length < limit then
      let pu := pageUrls (pages.getD page ⟨[], []⟩) acc
      if pu.length = 0 then (acc ++ pu, [⟨page, acc.length, pu.length⟩])
      else
        let rest := searchLoop pages limit fuel (page + 1) (acc ++ pu)
        (rest.1, ⟨page, acc.length, pu.length⟩ :: rest.2)
    else (acc, [])

/-- `max_pages = (limit // 10) + 2` as computed by `_search_profiles`. -/
def max_pages (limit : Nat) : Nat :=
  limit / 10 + 2

/-- Modelled from the spec's words for comparison only (the spec states
`max_pages = ceil(limit / 10) + 2`); the source computes `max_pages` by floor
division. -/
def spec_max_pages (limit : Nat) : Nat :=
  (limit + 9) / 10 + 2

/-- `LinkedInScraper._search_profiles`: run the pagination loop from page 0
with an empty running set, then `return list(set(profile_urls))[:limit]`. -/
def search_profiles (pages : List SearchPage) (limit : Nat) : List String :=
  (dedupFirst [] (searchLoop pages limit (max_pages limit) 0 []).1).take limit

/-- The trace of page fetches performed by `_search_profiles`. -/
def search_trace (pages : List SearchPage) (limit : Nat) : List FetchEvt :=
  (searchLoop pages limit (max_pages limit) 0 []).2

/-! ## Orchestrator (`LinkedInScraper.scrape_profiles._scrape`) -/

/-- `_login`'s success check on the post-login browser URL:
`"feed" in driver.current_url or "linkedin.com/in/" in driver.current_url`. -/
def login_check (currentUrl : String) : Bool :=
  strContains currentUrl "feed" || strContains currentUrl "linkedin.com/in/"

/-- The environment one scrape job runs against. `serviceErr`/`driverErr`
model `_get_chrome_service` / `webdriver.Chrome` raising (with the raised
exception) or succeeding (`none`). `postLoginUrl` is the browser URL after
the login settle delay, `none` modelling an exception inside `_login` (which
`_login` catches, returning `False`). `profilePage` gives the rendered
content of each profile URL. -/
structure ScrapeEnv where
  serviceErr : Option PyExc
  driverErr : Option PyExc
  postLoginUrl : Option String
  pages : List SearchPage
  limit : Nat
  profilePage : String → ProfilePage

/-- `LinkedInScraper._login`: `True` iff no exception occurred and the
post-login URL passes `login_check`. -/
def login_result (env : ScrapeEnv) : Bool :=
  match env.postLoginUrl with
  | none => false
  | some u => login_check u

/-- Outcome of one job: `ok` is the `DONE` terminal state with its result
list, `err` the `FAILED` terminal state with the propagated exception. -/
inductive ScrapeResult where
  | ok (profiles : List ProfileRecord)
  | err (e : PyExc)
deriving DecidableEq, Repr

/-- The exception class of a failed result, if any. -/
def ScrapeResult.errCls : ScrapeResult → Option String
  | .ok _ => none
  | .err e => some e.cls

/-- The `try` body of `_scrape`: set up service and driver, login (raising
the generic `Exception('Failed to login to LinkedIn')` on failure), search,
return `[]` on zero URLs, else extract each of the first `limit` URLs.
The second component records whether `driver` was assigned, which is what
the `finally` block's `if driver:` tests. -/
def scrapeBody (env : ScrapeEnv) : ScrapeResult × Bool :=
  match env.serviceErr with
  | some e => (.err e, false)
  | none =>
    match env.driverErr with
    | some e => (.err e, false)
    | none =>
      if login_result env = false then
        (.err ⟨"Exception", "Failed to login to LinkedIn"⟩, true)
      else if (search_profiles env.pages env.limit).isEmpty then (.ok [], true)
      else
        (.ok (((search_profiles env.pages env.limit).take env.limit).map
            (fun u => scrape_profile (env.profilePage u))),
         true)

/-- `_scrape` including its `finally` block: the result together with the
number of `driver.quit()` calls made (`1` iff `driver` was assigned). -/
def scrapeRun (env : ScrapeEnv) : ScrapeResult × Nat :=
  ((scrapeBody env).1, if (scrapeBody env).2 then 1 else 0)

/-! ## Helper lemmas -/

/-- The final `x if x else "N/A"` guard yields the sentinel or a non-empty
string. -/
theorem orNA_ok (s : String) : orNA s = "N/A" ∨ orNA s ≠ "" := by
  unfold orNA
  split
  · exact Or.inl rfl
  · next h => exact Or.inr h

/-- Truthiness of Python `a or b` over optional strings. -/
theorem truthy_pyOr (a b : Option String) :
    truthy (pyOr a b) = (truthy a || truthy b) := by
  cases a with
  | none => rfl
  | some s =>
    by_cases h : s = ""
    · simp [pyOr, truthy, h]
    · simp [pyOr, truthy, h]

/-- A truthy optional string holds a non-empty string. -/
theorem truthy_getD_ne (o : Option String) (h : truthy o = true) :
    o.getD "" ≠ "" := by
  cases o with
  | none => exact absurd h (by simp [truthy])
  | some s =>
    simpa [truthy] using h

/-! ## Claim theorems -/

/-- C2: `_scrape_profile` is total (never raises — any internal lookup
failure degrades the affected field), every field of the returned record is
either the sentinel `"N/A"` or a non-empty string — never the empty string —
and a failure of the page navigation itself yields the all-sentinel
record. -/
theorem c2_extractor_fields (pg : ProfilePage) :
    ((scrape_profile pg).name = "N/A" ∨ (scrape_profile pg).name ≠ "")
    ∧ ((scrape_profile pg).title = "N/A" ∨ (scrape_profile pg).title ≠ "")
    ∧ ((scrape_profile pg).company = "N/A" ∨ (scrape_profile pg).company ≠ "")
    ∧ ((scrape_profile pg).location = "N/A" ∨ (scrape_profile pg).location ≠ "")
    ∧ (pg.loadOk = false → scrape_profile pg = ⟨"N/A", "N/A", "N/A", "N/A"⟩) := by
  by_cases h : pg.loadOk
  · simp only [scrape_profile, h, Bool.not_true, Bool.false_eq_true, if_false]
    exact ⟨orNA_ok _, orNA_ok _, orNA_ok _, orNA_ok _, fun hf => by simp [h] at hf⟩
  · simp only [Bool.not_eq_true] at h
    simp [scrape_profile, h]

/-- C2 witness: on a page where every lookup fails, the all-sentinel record
is returned and each field is the sentinel or non-empty. -/
theorem c2_extractor_fields_witness :
    scrape_profile ⟨false, none, none, none, none, [], none, none⟩
      = ⟨"N/A", "N/A", "N/A", "N/A"⟩
    ∧ ((scrape_profile ⟨false, none, none, none, none, [], none, none⟩).name = "N/A"
       ∨ (scrape_profile ⟨false, none, none, none, none, [], none, none⟩).name ≠ "") :=
  ⟨(c2_extractor_fields ⟨false, none, none, none, none, [], none, none⟩).2.2.2.2 rfl,
   (c2_extractor_fields ⟨false, none, none, none, none, [], none, none⟩).1⟩

/-- C7: the local keyword fallback returns between 1 and 7 tokens; when no
token of the lowercased, whitespace-split prompt survives the stopword and
length filters it returns exactly `["business", "professional"]`, otherwise
the first 7 survivors, each a token of the lowercased split prompt, not a
stopword, and of length above 2; and the spec's example prompt yields
`["food", "business", "dubai"]`. -/
theorem c7_keyword_fallback (prompt : String) :
    (1 ≤ (fallback_extraction prompt).length ∧ (fallback_extraction prompt).length ≤ 7)
    ∧ (surviving prompt = [] → fallback_extraction prompt = ["business", "professional"])
    ∧ (surviving prompt ≠ [] →
        fallback_extraction prompt = (surviving prompt).take 7
        ∧ ∀ w ∈ fallback_extraction prompt,
            w ∈ pySplitWs (pyLower prompt) ∧ ¬ w ∈ stop_words ∧ 2 < w.length)
    ∧ fallback_extraction "i want the leads they are doing the food business in dubai"
        = ["food", "business", "dubai"] := by
  refine ⟨?_, ?_, ?_, by decide⟩
  · by_cases h : surviving prompt = []
    · simp [fallback_extraction, h]
    · have hne : ¬ (surviving prompt).isEmpty := by
        simpa [List.isEmpty_iff] using h
      simp only [fallback_extraction, hne, if_false]
      constructor
      · have hnil : (surviving prompt).take 7 ≠ [] := by
          intro h7
          rcases List.take_eq_nil_iff.mp h7 with h7 | h7 <;> simp_all
        exact List.length_pos.mpr hnil
      · exact List.length_take_le 7 (surviving prompt)
  · intro h
    simp [fallback_extraction, h]
  · intro h
    have hne : ¬ (surviving prompt).isEmpty := by
      simpa [List.isEmpty_iff] using h
    simp only [fallback_extraction, hne, if_false]
    refine ⟨rfl, ?_⟩
    intro w hw
    have hw' : w ∈ surviving prompt := (List.take_sublist 7 _).subset hw
    have := List.mem_filter.mp hw'
    refine ⟨this.1, ?_, ?_⟩
    · have hb := this.2
      simp only [Bool.and_eq_true, Bool.not_eq_true'] at hb
      intro hmem
      have : stop_words.contains w = true := List.elem_eq_true_of_mem hmem
      rw [this] at hb
      exact absurd hb.1 (by simp)
    · have hb := this.2
      simp only [Bool.and_eq_true, decide_eq_true_eq] at hb
      exact hb.2

/-- C7 witness: the spec's example prompt yields the expected keywords, and a
casual prompt yields a non-empty result. -/
theorem c7_keyword_fallback_witness :
    fallback_extraction "i want the leads they are doing the food business in dubai"
      = ["food", "business", "dubai"]
    ∧ 1 ≤ (fallback_extraction "software engineer").length :=
  ⟨(c7_keyword_fallback "x").2.2.2,
   (c7_keyword_fallback "software engineer").1.1⟩

/-- C10: constructing the scraper fails with `ValueError` whenever the email
or the password is falsy (`None` or empty) in both the caller argument and
the environment, and every successfully constructed scraper holds a
non-empty email and a non-empty password. -/
theorem c10_init_credentials :
    (∀ emailArg passwordArg envEmail envPassword : Option String,
       (truthy emailArg = false ∧ truthy envEmail = false)
       ∨ (truthy passwordArg = false ∧ truthy envPassword = false) →
       scraper_init emailArg passwordArg envEmail envPassword
         = .error ⟨"ValueError",
             "LINKEDIN_EMAIL and LINKEDIN_PASSWORD must be provided or set in environment variables"⟩)
    ∧ (∀ emailArg passwordArg envEmail envPassword creds,
        scraper_init emailArg passwordArg envEmail envPassword = .ok creds →
        creds.linkedin_email ≠ "" ∧ creds.linkedin_password ≠ "") := by
  constructor
  · intro a b c d h
    have : (truthy (pyOr a c) && truthy (pyOr b d)) = false := by
      rcases h with ⟨h1, h2⟩ | ⟨h1, h2⟩ <;>
        simp [truthy_pyOr, h1, h2]
    simp [scraper_init, this]
  · intro a b c d creds h
    by_cases hc : (truthy (pyOr a c) && truthy (pyOr b d)) = true
    · have h1 := (Bool.and_eq_true _ _).mp hc
      simp only [scraper_init, hc, if_true] at h
      cases h
      exact ⟨truthy_getD_ne _ h1.1, truthy_getD_ne _ h1.2⟩
    · simp only [Bool.not_eq_true] at hc
      simp [scraper_init, hc] at h

/-- C10 witness: a missing email (no argument, empty environment variable)
raises `ValueError`, and a fully supplied pair constructs successfully with
non-empty stored credentials. -/
theorem c10_init_credentials_witness :
    scraper_init none (some "secret") (some "") none
      = .error ⟨"ValueError",
          "LINKEDIN_EMAIL and LINKEDIN_PASSWORD must be provided or set in environment variables"⟩
    ∧ (∀ creds, scraper_init (some "user@example.com") (some "secret") none none = .ok creds →
        creds.linkedin_email ≠ "") := by
  refine ⟨c10_init_credentials.1 none (some "secret") (some "") none
      (Or.inl ⟨by decide, by decide⟩), ?_⟩
  intro creds h
  exact (c10_init_credentials.2 (some "user@example.com") (some "secret") none none creds h).1

/-- A profile page on which every lookup fails. -/
def blankProfilePage : ProfilePage :=
  ⟨true, none, none, none, none, [], none, none⟩

/-- The driver flag of the orchestrator body is true iff service and driver
creation both succeeded. -/
theorem scrapeBody_snd_true (env : ScrapeEnv)
    (hs : env.serviceErr = none) (hd : env.driverErr = none) :
    (scrapeBody env).2 = true := by
  unfold scrapeBody
  simp only [hs, hd]
  split
  · rfl
  · split
    · rfl
    · rfl

/-- An environment whose driver resolution fails before a browser exists. -/
def c1_env : ScrapeEnv :=
  ⟨some ⟨"Exception", "ChromeDriver not found"⟩, none,
   some "https://www.linkedin.com/feed/", [], 5, fun _ => blankProfilePage⟩

/-- C1 counterexample: a job whose driver resolution fails reaches the
`FAILED` terminal state with zero `driver.quit()` calls — not exactly one as
claimed. -/
theorem c1_teardown_counterexample :
    (scrapeRun c1_env).1 = .err ⟨"Exception", "ChromeDriver not found"⟩
    ∧ (scrapeRun c1_env).2 = 0 :=
  ⟨rfl, rfl⟩

/-- C1 (amended): on every terminal transition at most one teardown call is
made; exactly one iff the browser was created (service and driver setup both
succeeded) — in particular on `DONE` — and zero when driver resolution or
creation fails before a browser exists. -/
theorem c1_teardown_amended (env : ScrapeEnv) :
    (scrapeRun env).2 ≤ 1
    ∧ ((scrapeRun env).2 = 1 ↔ (env.serviceErr = none ∧ env.driverErr = none))
    ∧ (∀ ps, (scrapeRun env).1 = .ok ps → (scrapeRun env).2 = 1) := by
  cases hs : env.serviceErr with
  | some e =>
    have hbody : scrapeBody env = (.err e, false) := by
      unfold scrapeBody; rw [hs]
    have hrun : scrapeRun env = (.err e, 0) := by
      unfold scrapeRun; rw [hbody]; rfl
    rw [hrun]
    refine ⟨Nat.zero_le 1, ?_, ?_⟩
    · simp [hs]
    · intro ps h
      cases h
  | none =>
    cases hd : env.driverErr with
    | some e =>
      have hbody : scrapeBody env = (.err e, false) := by
        unfold scrapeBody; rw [hs, hd]
      have hrun : scrapeRun env = (.err e, 0) := by
        unfold scrapeRun; rw [hbody]; rfl
      rw [hrun]
      refine ⟨Nat.zero_le 1, ?_, ?_⟩
      · simp [hd]
      · intro ps h
        cases h
    | none =>
      have h2 : (scrapeRun env).2 = 1 := by
        unfold scrapeRun
        rw [scrapeBody_snd_true env hs hd]
        rfl
      rw [h2]
      exact ⟨le_refl 1, ⟨fun _ => ⟨rfl, rfl⟩, fun _ => rfl⟩, fun _ _ => rfl⟩

/-- An environment in which the whole pipeline succeeds with empty search
results. -/
def c1_ok_env : ScrapeEnv :=
  ⟨none, none, some "https://www.linkedin.com/feed/", [], 3, fun _ => blankProfilePage⟩

/-- C1 witness: on a successfully created session the teardown is called
exactly once, and never more than once. -/
theorem c1_teardown_amended_witness :
    (scrapeRun c1_ok_env).2 = 1 ∧ (scrapeRun c1_ok_env).2 ≤ 1 :=
  ⟨(c1_teardown_amended c1_ok_env).2.1.mpr ⟨rfl, rfl⟩,
   (c1_teardown_amended c1_ok_env).1⟩

/-- An environment whose login lands on a URL matching neither accepted
pattern. -/
def c9_env : ScrapeEnv :=
  ⟨none, none, some "https://www.linkedin.com/checkpoint/challenge", [], 5,
   fun _ => blankProfilePage⟩

/-- C9 counterexample: when login verification fails the raised error is the
generic Python `Exception` class (message `Failed to login to LinkedIn`), not
an `AuthenticationError` — no such error type exists in the code. -/
theorem c9_login_failure_counterexample :
    (scrapeRun c9_env).1 = .err ⟨"Exception", "Failed to login to LinkedIn"⟩
    ∧ (scrapeRun c9_env).1.errCls = some "Exception"
    ∧ ¬ (scrapeRun c9_env).1.errCls = some "AuthenticationError"
    ∧ (scrapeRun c9_env).2 = 1 :=
  ⟨rfl, rfl, by decide, rfl⟩

/-- C9 (amended): when login verification fails — the post-login URL matches
neither the `feed` pattern nor the profile-page pattern, or the login
interaction itself raised — the job fails with the generic `Exception`
carrying the message `Failed to login to LinkedIn`, and the session is torn
down (exactly one `driver.quit()`) before the error propagates. -/
theorem c9_login_failure_amended (env : ScrapeEnv)
    (hs : env.serviceErr = none) (hd : env.driverErr = none)
    (hl : login_result env = false) :
    scrapeRun env = (.err ⟨"Exception", "Failed to login to LinkedIn"⟩, 1) := by
  have hbody : scrapeBody env = (.err ⟨"Exception", "Failed to login to LinkedIn"⟩, true) := by
    unfold scrapeBody
    simp only [hs, hd]
    rw [if_pos hl]
  unfold scrapeRun
  rw [hbody]
  rfl

/-- C9 witness: the amended statement at the concrete failed-login
environment. -/
theorem c9_login_failure_amended_witness :
    scrapeRun c9_env = (.err ⟨"Exception", "Failed to login to LinkedIn"⟩, 1) :=
  c9_login_failure_amended c9_env rfl rfl (by decide)

/-- The paginator acting on no rendered content returns the empty list. -/
theorem search_profiles_nil (limit : Nat) : search_profiles [] limit = [] := by
  have h2 : max_pages limit = (limit / 10 + 1) + 1 := rfl
  unfold search_profiles
  rw [h2]
  cases limit with
  | zero => simp [searchLoop]
  | succ l => simp [searchLoop, pageUrls, dedupFirst]

/-- C6: the paginator is total and returns the empty list on zero results,
and a job whose paginator returns zero URLs terminates in `DONE` with the
empty result list (with its single teardown), never in `FAILED`. -/
theorem c6_empty_results_done :
    (∀ limit : Nat, search_profiles [] limit = [])
    ∧ (∀ env : ScrapeEnv, env.serviceErr = none → env.driverErr = none →
        login_result env = true → search_profiles env.pages env.limit = [] →
        scrapeRun env = (.ok [], 1)) := by
  refine ⟨search_profiles_nil, ?_⟩
  intro env hs hd hl hse
  have hbody : scrapeBody env = (.ok [], true) := by
    unfold scrapeBody
    simp only [hs, hd]
    rw [if_neg (by simp [hl])]
    simp [hse]
  unfold scrapeRun
  rw [hbody]
  rfl

/-- An environment that authenticates but discovers no profiles. -/
def c6_env : ScrapeEnv :=
  ⟨none, none, some "https://www.linkedin.com/feed/", [], 5, fun _ => blankProfilePage⟩

/-- C6 witness: the empty-results job ends `DONE` with an empty list. -/
theorem c6_empty_results_done_witness :
    search_profiles [] 5 = [] ∧ scrapeRun c6_env = (.ok [], 1) :=
  ⟨c6_empty_results_done.1 5,
   c6_empty_results_done.2 c6_env rfl rfl (by decide) (c6_empty_results_done.1 5)⟩

/-- C3: the paginator returns at most `limit` URLs, and every `DONE` job
returns at most `limit` profile records. -/
theorem c3_limit_bound :
    (∀ (pages : List SearchPage) (limit : Nat), 0 < limit →
       (search_profiles pages limit).length ≤ limit)
    ∧ (∀ (env : ScrapeEnv) (ps : List ProfileRecord), 0 < env.limit →
        (scrapeRun env).1 = .ok ps → ps.length ≤ env.limit) := by
  constructor
  · intro pages limit _
    unfold search_profiles
    exact List.length_take_le _ _
  · intro env ps _ h
    have hps : (scrapeBody env).1 = .ok ps := h
    unfold scrapeBody at hps
    cases hs : env.serviceErr with
    | some e =>
      simp only [hs] at hps
      exact absurd hps (by simp)
    | none =>
      cases hd : env.driverErr with
      | some e =>
        simp only [hs, hd] at hps
        exact absurd hps (by simp)
      | none =>
        simp only [hs, hd] at hps
        by_cases hl : login_result env = false
        · rw [if_pos hl] at hps
          exact absurd hps (by simp)
        · rw [if_neg hl] at hps
          by_cases he : (search_profiles env.pages env.limit).isEmpty
          · rw [if_pos he] at hps
            have : ps = [] := by
              cases hps
              rfl
            simp [this]
          · rw [if_neg he] at hps
            have hmap : ps = ((search_profiles env.pages env.limit).take env.limit).map
                (fun u => scrape_profile (env.profilePage u)) := by
              cases hps
              rfl
            rw [hmap, List.length_map]
            exact List.length_take_le _ _

/-- C3 witness: a concrete one-page job with limit 1 returns one URL and one
record. -/
theorem c3_limit_bound_witness :
    (search_profiles [⟨["https://www.linkedin.com/in/a?x",
        "https://www.linkedin.com/in/b"], []⟩] 1).length ≤ 1
    ∧ ∀ ps, (scrapeRun c1_ok_env).1 = .ok ps → ps.length ≤ 3 :=
  ⟨c3_limit_bound.1 [⟨["https://www.linkedin.com/in/a?x",
      "https://www.linkedin.com/in/b"], []⟩] 1 (by decide),
   fun ps h => c3_limit_bound.2 c1_ok_env ps (by decide) h⟩

/-- A query-stripped string contains no `'?'`. -/
theorem stripQuery_no_query (s : String) : strContains (stripQuery s) "?" = false := by
  rw [Bool.eq_false_iff]
  intro h
  unfold strContains at h
  rw [List.any_eq_true] at h
  obtain ⟨i, _, hpre⟩ := h
  have hq : ('?' : Char) ∈ (stripQuery s).data.drop i := by
    cases hd : (stripQuery s).data.drop i with
    | nil => rw [hd] at hpre; simp [List.isPrefixOf] at hpre
    | cons c cs =>
      rw [hd] at hpre
      simp only [List.isPrefixOf, Bool.and_eq_true, beq_iff_eq] at hpre
      rw [← hpre.1]
      exact List.mem_cons_self _ _
  have hq' : ('?' : Char) ∈ s.data.takeWhile (fun c => c != '?') :=
    List.mem_of_mem_drop hq
  have := List.mem_takeWhile_imp hq'
  simp at this

/-- `dedupFirst` produces a duplicate-free list avoiding the `seen` set. -/
theorem dedupFirst_nodup : ∀ (xs seen : List String),
    (dedupFirst seen xs).Nodup ∧ ∀ u ∈ dedupFirst seen xs, ¬ u ∈ seen := by
  intro xs
  induction xs with
  | nil => intro seen; simp [dedupFirst]
  | cons x xs ih =>
    intro seen
    by_cases h : seen.contains x
    · simp only [dedupFirst, h, if_true]
      exact ih seen
    · simp only [dedupFirst, h, if_false]
      refine ⟨List.nodup_cons.mpr ⟨?_, (ih (x :: seen)).1⟩, ?_⟩
      · intro hx
        exact (ih (x :: seen)).2 x hx (List.mem_cons_self x seen)
      · intro u hu
        rcases List.mem_cons.mp hu with rfl | hu'
        · intro hmem
          exact h (List.elem_eq_true_of_mem hmem)
        · exact fun hc => (ih (x :: seen)).2 u hu' (List.mem_cons_of_mem x hc)

/-- Membership through the validity-and-deduplication append. -/
theorem addIfNew_mem (acc pageAcc : List String) (full u : String)
    (hu : u ∈ addIfNew acc pageAcc full) : u ∈ pageAcc ∨ u = full := by
  unfold addIfNew at hu
  split at hu
  · rcases List.mem_append.mp hu with h | h
    · exact Or.inl h
    · exact Or.inr (List.mem_singleton.mp h)
  · exact Or.inl hu

/-- Every URL the data-attribute scan adds is query-stripped. -/
theorem strat2Step_query (acc pageAcc : List String) (href u : String)
    (hu : u ∈ strat2Step acc pageAcc href) :
    u ∈ pageAcc ∨ strContains u "?" = false := by
  simp only [strat2Step] at hu
  split at hu
  · split at hu
    · split at hu
      · rcases List.mem_append.mp hu with h | h
        · exact Or.inl h
        · rw [List.mem_singleton.mp h]
          exact Or.inr (stripQuery_no_query _)
      · exact Or.inl hu
    · split at hu
      · rcases List.mem_append.mp hu with h | h
        · exact Or.inl h
        · rw [List.mem_singleton.mp h]
          exact Or.inr (stripQuery_no_query _)
      · exact Or.inl hu
  · exact Or.inl hu

/-- Every URL the anchor scan adds is query-stripped unless it came from the
relative-href branch, which absolutizes the href verbatim, query string and
all. -/
theorem strat1Step_query (acc pageAcc : List String) (href u : String)
    (hu : u ∈ strat1Step acc pageAcc href) :
    u ∈ pageAcc
    ∨ (pyStartsWith href "/" = true ∧ u = "https://www.linkedin.com" ++ href)
    ∨ strContains u "?" = false := by
  unfold strat1Step at hu
  split at hu
  · split at hu
    · next hstart =>
      rcases addIfNew_mem _ _ _ _ hu with h | h
      · exact Or.inl h
      · exact Or.inr (Or.inl ⟨hstart, h⟩)
    · split at hu
      · rcases addIfNew_mem _ _ _ _ hu with h | h
        · exact Or.inl h
        · rw [h]
          exact Or.inr (Or.inr (stripQuery_no_query href))
      · exact Or.inl hu
  · exact Or.inl hu

/-- The search page of the C4 counterexample: one anchor with a relative
profile href whose query string mentions the host, and one anchor with an
absolute href to the same profile. -/
def c4_page : SearchPage :=
  ⟨["/in/john?trk=linkedin.com", "https://www.linkedin.com/in/john?x=1"], []⟩

/-- C4 counterexample: the discovered set contains a URL with its query
string retained (so not in canonical form), and two distinct entries that
canonicalize (query-strip) to the same profile URL. -/
theorem c4_canonical_counterexample :
    search_profiles [c4_page] 10
      = ["https://www.linkedin.com/in/john?trk=linkedin.com",
         "https://www.linkedin.com/in/john"]
    ∧ strContains "https://www.linkedin.com/in/john?trk=linkedin.com" "?" = true
    ∧ ("https://www.linkedin.com/in/john?trk=linkedin.com" : String)
        ≠ "https://www.linkedin.com/in/john"
    ∧ stripQuery "https://www.linkedin.com/in/john?trk=linkedin.com"
        = stripQuery "https://www.linkedin.com/in/john" :=
  ⟨by decide, by decide, by decide, by decide⟩

/-- C4 (amended): the returned list contains no duplicate exact URL strings;
every URL added by the data-attribute scan is query-stripped; every URL added
by the anchor scan is query-stripped except when it came from a relative
href, which is absolutized with its query string retained — so two entries
may share a canonical (query-stripped) form. -/
theorem c4_dedup_amended :
    (∀ (pages : List SearchPage) (limit : Nat), (search_profiles pages limit).Nodup)
    ∧ (∀ (acc pageAcc : List String) (href u : String),
        u ∈ strat2Step acc pageAcc href → u ∈ pageAcc ∨ strContains u "?" = false)
    ∧ (∀ (acc pageAcc : List String) (href u : String),
        u ∈ strat1Step acc pageAcc href →
          u ∈ pageAcc
          ∨ (pyStartsWith href "/" = true ∧ u = "https://www.linkedin.com" ++ href)
          ∨ strContains u "?" = false) := by
  refine ⟨?_, strat2Step_query, strat1Step_query⟩
  intro pages limit
  unfold search_profiles
  exact ((dedupFirst_nodup _ []).1).sublist (List.take_sublist _ _)

/-- C4 witness: the counterexample page's output is duplicate-free as exact
strings, and a data-attribute href with a query string is stripped. -/
theorem c4_dedup_amended_witness :
    (search_profiles [c4_page] 10).Nodup
    ∧ (("https://www.linkedin.com/in/x" : String) ∈ ([] : List String)
       ∨ strContains "https://www.linkedin.com/in/x" "?" = false) :=
  ⟨c4_dedup_amended.1 [c4_page] 10,
   c4_dedup_amended.2.1 [] [] "/in/x?q=1" "https://www.linkedin.com/in/x" (by decide)⟩

/-- The pagination loop fetches at most `fuel` pages. -/
theorem searchLoop_trace_length_le (pages : List SearchPage) (limit : Nat) :
    ∀ (fuel page : Nat) (acc : List String),
      (searchLoop pages limit fuel page acc).2.length ≤ fuel := by
  intro fuel
  induction fuel with
  | zero => intro page acc; simp [searchLoop]
  | succ n ih =>
    intro page acc
    by_cases hlt : acc.length < limit
    · by_cases hz : (pageUrls (pages.getD page ⟨[], []⟩) acc).length = 0
      · have heq : (searchLoop pages limit (n + 1) page acc).2
            = [⟨page, acc.length, (pageUrls (pages.getD page ⟨[], []⟩) acc).length⟩] := by
          simp only [searchLoop]
          rw [if_pos hlt, if_pos hz]
        rw [heq]
        simp
      · have heq : (searchLoop pages limit (n + 1) page acc).2
            = ⟨page, acc.length, (pageUrls (pages.getD page ⟨[], []⟩) acc).length⟩
              :: (searchLoop pages limit n (page + 1)
                   (acc ++ pageUrls (pages.getD page ⟨[], []⟩) acc)).2 := by
          simp only [searchLoop]
          rw [if_pos hlt, if_neg hz]
        rw [heq, List.length_cons]
        exact Nat.succ_le_succ (ih (page + 1) _)
    · have heq : (searchLoop pages limit (n + 1) page acc).2 = [] := by
        simp only [searchLoop]
        rw [if_neg hlt]
      rw [heq]
      simp

/-- Every page fetch of the pagination loop except possibly the last
contributed at least one previously-unseen URL, and every fetch happened
while the running set was still below `limit`. -/
theorem searchLoop_trace_good (pages : List SearchPage) (limit : Nat) :
    ∀ (fuel page : Nat) (acc : List String),
      (∀ e ∈ (searchLoop pages limit fuel page acc).2.dropLast, e.newCount ≠ 0)
      ∧ (∀ e ∈ (searchLoop pages limit fuel page acc).2, e.accBefore < limit) := by
  intro fuel
  induction fuel with
  | zero =>
    intro page acc
    exact ⟨fun e he => absurd he (by simp [searchLoop]),
           fun e he => absurd he (by simp [searchLoop])⟩
  | succ n ih =>
    intro page acc
    by_cases hlt : acc.length < limit
    · by_cases hz : (pageUrls (pages.getD page ⟨[], []⟩) acc).length = 0
      · have heq : (searchLoop pages limit (n + 1) page acc).2
            = [⟨page, acc.length, (pageUrls (pages.getD page ⟨[], []⟩) acc).length⟩] := by
          simp only [searchLoop]
          rw [if_pos hlt, if_pos hz]
        rw [heq]
        refine ⟨fun e he => absurd he (by simp), fun e he => ?_⟩
        rw [List.mem_singleton.mp he]
        exact hlt
      · have heq : (searchLoop pages limit (n + 1) page acc).2
            = ⟨page, acc.length, (pageUrls (pages.getD page ⟨[], []⟩) acc).length⟩
              :: (searchLoop pages limit n (page + 1)
                   (acc ++ pageUrls (pages.getD page ⟨[], []⟩) acc)).2 := by
          simp only [searchLoop]
          rw [if_pos hlt, if_neg hz]
        rw [heq]
        constructor
        · intro e he
          cases htail : (searchLoop pages limit n (page + 1)
              (acc ++ pageUrls (pages.getD page ⟨[], []⟩) acc)).2 with
          | nil =>
            rw [htail] at he
            simp at he
          | cons b bs =>
            rw [htail, List.dropLast_cons₂] at he
            rcases List.mem_cons.mp he with rfl | he'
            · exact hz
            · have h1 := (ih (page + 1)
                (acc ++ pageUrls (pages.getD page ⟨[], []⟩) acc)).1
              rw [htail] at h1
              exact h1 e he'
        · intro e he
          rcases List.mem_cons.mp he with rfl | he'
          · exact hlt
          · exact (ih (page + 1) _).2 e he'
    · have heq : (searchLoop pages limit (n + 1) page acc).2 = [] := by
        simp only [searchLoop]
        rw [if_neg hlt]
      rw [heq]
      exact ⟨fun e he => absurd he (by simp), fun e he => absurd he (by simp)⟩

/-- C5 counterexample: the code computes `max_pages` by floor division, so
for `limit = 5` it is `2`, not the claimed `ceil(5 / 10) + 2 = 3`. -/
theorem c5_max_pages_counterexample :
    max_pages 5 = 2 ∧ spec_max_pages 5 = 3 ∧ max_pages 5 ≠ spec_max_pages 5 := by
  decide

/-- C5 (amended): for every `limit > 0` the paginator fetches at most
`max_pages` pages, where `max_pages = limit // 10 + 2` (floor division); in
particular `max_pages 5 = 2`. -/
theorem c5_page_bound_amended (pages : List SearchPage) (limit : Nat)
    (_h : 0 < limit) :
    (search_trace pages limit).length ≤ max_pages limit
    ∧ max_pages limit = limit / 10 + 2
    ∧ max_pages 5 = 2 :=
  ⟨searchLoop_trace_length_le pages limit (max_pages limit) 0 [], rfl, rfl⟩

/-- C5 witness: at `limit = 5` on a contentless session, at most 2 pages are
fetched. -/
theorem c5_page_bound_amended_witness :
    (search_trace [] 5).length ≤ max_pages 5 ∧ max_pages 5 = 2 :=
  ⟨(c5_page_bound_amended [] 5 (by decide)).1,
   (c5_page_bound_amended [] 5 (by decide)).2.2⟩

/-- C8: in every job's fetch trace, every fetched page except possibly the
last contributed at least one previously-unseen URL — so after a page
contributing zero new URLs no further page is fetched — and every page was
fetched only while the running set still held fewer than `limit` URLs. -/
theorem c8_pagination_halts (pages : List SearchPage) (limit : Nat) :
    (∀ e ∈ (search_trace pages limit).dropLast, e.newCount ≠ 0)
    ∧ (∀ e ∈ search_trace pages limit, e.accBefore < limit) :=
  searchLoop_trace_good pages limit (max_pages limit) 0 []

/-- The pages of the C8 witness: page 0 yields one profile, page 1 yields
none. -/
def c8_pages : List SearchPage :=
  [⟨["https://www.linkedin.com/in/a"], []⟩, ⟨[], []⟩]

/-- C8 witness: in the concrete two-page run the non-final fetch contributed
a new URL and both fetches happened below the limit. -/
theorem c8_pagination_halts_witness :
    (⟨0, 0, 1⟩ : FetchEvt).newCount ≠ 0 ∧ (⟨1, 1, 0⟩ : FetchEvt).accBefore < 20 :=
  ⟨(c8_pagination_halts c8_pages 20).1 ⟨0, 0, 1⟩ (by decide),
   (c8_pagination_halts c8_pages 20).2 ⟨1, 1, 0⟩ (by decide)⟩

end TaskAero
